import Mathlib

/-!
Shallow embedding of the `backup-scheduler` library: the `Backup` record
(src/Backup.js), the two `BackupScheduler` cycle implementations found in the
sources (the variant without a `false` short-circuit in `list`, called variant A
below, and the variant with the short-circuit, called variant B), the option
validation shared by both constructors, and the pieces of the disk / S3 backends
that the verified properties mention.

JavaScript numbers are modelled as rationals (`Rat`), with `nan` kept as a
separate constructor of the JS-value type where type checks matter.  Backend
operations are modelled as oracles: each backend record fixes what one `list`,
`create` or `delete` call observes during a single cycle, and a cycle is a pure
function from the in-flight flag, the configuration and the backend oracle to
an outcome (returned boolean, new in-flight flag, ordered trace of backend
calls, list of emitted `error` events).
-/

namespace BackupSchedulerModel

/-- A JavaScript runtime value, restricted to the shapes that the validation
code in the sources distinguishes: `undefined`, `null`, booleans, finite
numbers, `NaN`, strings, functions and (other) objects. -/
inductive JSValue where
  | undefined
  | null
  | bool (b : Bool)
  | num (q : Rat)
  | nan
  | str (s : String)
  | fn
  | obj
deriving DecidableEq, Repr

/-- JavaScript truthiness: `undefined`, `null`, `false`, `0`, `NaN` and the
empty string are falsy, everything else modelled here is truthy. -/
def jsTruthy : JSValue → Bool
  | .undefined => false
  | .null => false
  | .bool b => b
  | .num q => decide (q ≠ 0)
  | .nan => false
  | .str s => decide (s ≠ "")
  | .fn => true
  | .obj => true

/-- Whether `typeof v === 'number'` holds (`NaN` is of number type). -/
def isNumberType : JSValue → Bool
  | .num _ => true
  | .nan => true
  | _ => false

/-- Whether `typeof v === 'string'` holds. -/
def isStringType : JSValue → Bool
  | .str _ => true
  | _ => false

/-- Whether `typeof v === 'function'` holds. -/
def isFunctionType : JSValue → Bool
  | .fn => true
  | _ => false

/-- The JavaScript comparison `v < c` for a constant number `c`.  In the
validators this test is only reached after `v` passed a truthiness and a
`typeof === 'number'` check, so only the finite-number case matters; for `NaN`
(and, vacuously, for the non-number shapes) the comparison yields `false`,
matching JavaScript. -/
def jsNumLt (v : JSValue) (c : Rat) : Bool :=
  match v with
  | .num q => decide (q < c)
  | _ => false

/-- Embedding of the `Backup` record (src/Backup.js): an id naming the artifact
in the backend namespace and a creation timestamp in milliseconds. -/
structure Backup where
  id : String
  created_at : Rat
deriving DecidableEq, Repr

/-- Embedding of the `Backup` constructor (src/Backup.js lines 11-25):
`id` must be truthy (hence a non-empty string) and of string type, and
`created_at` must be truthy, of number type and not `< 1`.  The guards make the
final fallback branch unreachable: whenever both guards pass, `id` is a
non-empty `str` and `created_at` is a finite `num`. -/
def backupNew (id : JSValue) (created_at : JSValue) : Except String Backup :=
  if !(jsTruthy id) || !(isStringType id) then
    .error "new Backup(id, created_at) -> Please provide a valid id to identify this backup."
  else if !(jsTruthy created_at) || !(isNumberType created_at) || jsNumLt created_at 1 then
    .error "new Backup(id, created_at) -> Please provide a valid created_at timestamp (in milliseconds) for this backup."
  else
    match id, created_at with
    | .str s, .num q => .ok ⟨s, q⟩
    | _, _ => .error "unreachable"

/-- Ordered insertion of a backup into a list, keyed on `created_at`: the new
element is placed immediately before the first entry whose `created_at` is not
smaller.  Folding this over a list yields the stable ascending sort that
`Array.prototype.sort` (stable since ECMAScript 2019) performs under the
comparator `(a, b) => a.created_at - b.created_at`. -/
def insertSorted (x : Backup) : List Backup → List Backup
  | [] => [x]
  | y :: ys => if x.created_at ≤ y.created_at then x :: y :: ys else y :: insertSorted x ys

/-- Embedding of `[...list].sort((a, b) => a.created_at - b.created_at)` from
both cycle variants: a stable sort of the listed backups, ascending by
`created_at`. -/
def jsSortByCreatedAt (l : List Backup) : List Backup := l.foldr insertSorted []

/-- Boolean test selecting the backups with a given `created_at` key; used to
state sort stability. -/
def createdAtIs (k : Rat) (b : Backup) : Bool := decide (b.created_at = k)

/-- Scheduler configuration as the cycle reads it: `this.options.limit`.  The
validator admits any number `≥ 1` here, so the field is a rational. -/
structure SchedulerConfig where
  limit : Rat
deriving DecidableEq, Repr

/-- What one call to the backend `list` operation does during a cycle, as the
core observes it: it may throw, return the literal `false`, return some other
non-array value, or return an array whose elements are either `Backup`
instances (`some b`) or anything else (`none`). -/
inductive JsListResult where
  | thrown (e : String)
  | boolFalse
  | nonArray
  | array (elems : List (Option Backup))
deriving DecidableEq, Repr

/-- Backend oracle for variant A of the cycle, where `create` is expected to
return a `Backup` instance: `create` may throw, or return a value that is a
`Backup` (`some b`) or not one (`none`). -/
structure BackendA where
  listResult : JsListResult
  createResult : Except String (Option Backup)
  deleteResult : List Backup → Except String Unit

/-- Backend oracle for variant B of the cycle, where the return value of
`create` is ignored: `create` may throw or succeed. -/
structure BackendB where
  listResult : JsListResult
  createResult : Except String Unit
  deleteResult : List Backup → Except String Unit

/-- One backend invocation recorded in a cycle trace.  A `list` call records
the value passed as its first argument (`none` = `undefined`: both cycle
variants invoke `this.options.list()` with an empty argument list). -/
inductive BackendCall where
  | listCall (arg : Option Rat)
  | createCall
  | deleteCall (backups : List Backup)
deriving DecidableEq, Repr

/-- Outcome of one invocation of the cycle routine: the returned boolean, the
value of the private in-flight flag when the call returns, the ordered trace of
backend invocations, and the payloads of the emitted `error` events. -/
structure CycleOutcome where
  success : Bool
  in_flight : Bool
  calls : List BackendCall
  errors : List String
deriving DecidableEq, Repr

/-- The validation error thrown when `list` does not return an array of
`Backup` instances. -/
def listTypeError : String :=
  "BackupScheduler -> The list function must return an Array of Backup instances."

/-- The validation error thrown by variant A when `create` does not return a
`Backup` instance. -/
def createTypeError : String :=
  "BackupScheduler -> The create function must create and return a Backup instance."

/-- Embedding of `list.find((backup) => !(backup instanceof Backup))` followed
by the array check: returns the elements as `Backup`s when every element is a
`Backup` instance, and `none` when some element is not. -/
def validateBackups : List (Option Backup) → Option (List Backup)
  | [] => some []
  | some b :: rest => (validateBackups rest).map (b :: ·)
  | none :: _ => none

/-- Embedding of `Array.prototype.slice`'s end-index conversion
(ToIntegerOrInfinity, truncation toward zero) for the non-negative indices the
cycle produces. -/
def jsToSliceIndex (q : Rat) : Nat := q.floor.toNat

/-- Body of the `try` block of variant A of the cycle
(src/src/S3BackupScheduler.js lines 281-306): call `list` with no argument,
require an array of `Backup`s (a `false` return fails this check), stably sort
ascending by `created_at`, call `create` and require a `Backup` result, then
compute `overflow = sorted.length - limit + 1` and, when positive, delete the
`overflow` oldest entries of the pre-create sorted snapshot.  Returns the
success flag, the call trace and the error caught by the `catch` block, if
any. -/
def runCycleBodyA (cfg : SchedulerConfig) (be : BackendA) :
    Bool × List BackendCall × Option String :=
  match be.listResult with
  | .thrown e => (false, [.listCall none], some e)
  | .boolFalse => (false, [.listCall none], some listTypeError)
  | .nonArray => (false, [.listCall none], some listTypeError)
  | .array elems =>
    match validateBackups elems with
    | none => (false, [.listCall none], some listTypeError)
    | some l =>
      let sorted := jsSortByCreatedAt l
      match be.createResult with
      | .error e => (false, [.listCall none, .createCall], some e)
      | .ok none => (false, [.listCall none, .createCall], some createTypeError)
      | .ok (some _) =>
        let overflow : Rat := (sorted.length : Rat) - cfg.limit + 1
        if 0 < overflow then
          let sliced := sorted.take (jsToSliceIndex overflow)
          match be.deleteResult sliced with
          | .error e => (false, [.listCall none, .createCall, .deleteCall sliced], some e)
          | .ok _ => (true, [.listCall none, .createCall, .deleteCall sliced], none)
        else (true, [.listCall none, .createCall], none)

/-- Body of the `try` block of variant B of the cycle
(src/src/S3BackupScheduler.js lines 418-452): identical to variant A except
that a literal `false` from `list` short-circuits straight to `create` with no
deletion, and the return value of `create` is not validated. -/
def runCycleBodyB (cfg : SchedulerConfig) (be : BackendB) :
    Bool × List BackendCall × Option String :=
  match be.listResult with
  | .thrown e => (false, [.listCall none], some e)
  | .boolFalse =>
    match be.createResult with
    | .error e => (false, [.listCall none, .createCall], some e)
    | .ok _ => (true, [.listCall none, .createCall], none)
  | .nonArray => (false, [.listCall none], some listTypeError)
  | .array elems =>
    match validateBackups elems with
    | none => (false, [.listCall none], some listTypeError)
    | some l =>
      let sorted := jsSortByCreatedAt l
      match be.createResult with
      | .error e => (false, [.listCall none, .createCall], some e)
      | .ok _ =>
        let overflow : Rat := (sorted.length : Rat) - cfg.limit + 1
        if 0 < overflow then
          let sliced := sorted.take (jsToSliceIndex overflow)
          match be.deleteResult sliced with
          | .error e => (false, [.listCall none, .createCall, .deleteCall sliced], some e)
          | .ok _ => (true, [.listCall none, .createCall, .deleteCall sliced], none)
        else (true, [.listCall none, .createCall], none)

/-- Variant A of `BackupScheduler.prototype.cycle`: the entry guard returns
`false` with no side effect while a cycle is in flight; otherwise the flag is
set, the body runs with every error caught and emitted once as an `error`
event, the flag is cleared unconditionally and the success boolean is
returned. -/
def cycleA (in_flight : Bool) (cfg : SchedulerConfig) (be : BackendA) : CycleOutcome :=
  if in_flight then ⟨false, in_flight, [], []⟩
  else
    let r := runCycleBodyA cfg be
    ⟨r.1, false, r.2.1, r.2.2.toList⟩

/-- Variant B of `BackupScheduler.prototype.cycle`, with the same guard,
catch-and-emit and flag-clearing structure around `runCycleBodyB`. -/
def cycleB (in_flight : Bool) (cfg : SchedulerConfig) (be : BackendB) : CycleOutcome :=
  if in_flight then ⟨false, in_flight, [], []⟩
  else
    let r := runCycleBodyB cfg be
    ⟨r.1, false, r.2.1, r.2.2.toList⟩

/-- Payloads of the `delete` calls in a trace, in order. -/
def deletePayloads : List BackendCall → List (List Backup)
  | [] => []
  | .deleteCall bs :: rest => bs :: deletePayloads rest
  | _ :: rest => deletePayloads rest

/-- Arguments of the `list` calls in a trace, in order. -/
def listCallArgs : List BackendCall → List (Option Rat)
  | [] => []
  | .listCall a :: rest => a :: listCallArgs rest
  | _ :: rest => listCallArgs rest

/-- Number of `create` calls in a trace. -/
def createCallCount : List BackendCall → Nat
  | [] => 0
  | .createCall :: rest => createCallCount rest + 1
  | _ :: rest => createCallCount rest

/-- Embedding of the short-circuit test of `DiskBackupScheduler.prototype.list`
(src/src/DiskBackupScheduler.js line 92): `files.length < limit` returns
`false` early when it holds.  The `limit` parameter is modelled as
`Option Rat`, with `none` standing for `undefined`; in JavaScript a `<`
comparison against `undefined` evaluates to `false`. -/
def diskListShortCircuits (numFiles : Nat) (limit : Option Rat) : Bool :=
  match limit with
  | some q => decide ((numFiles : Rat) < q)
  | none => false

/-- The configuration object as the `BackupScheduler` constructor inspects it:
the `interval` and `limit` entries and the three backend operations (a missing
entry is the value `undefined`). -/
structure JsOptions where
  interval : JSValue
  limit : JSValue
  list : JSValue
  create : JSValue
  delete : JSValue
deriving DecidableEq, Repr

/-- Embedding of the validation prefix of the `BackupScheduler` constructor
(identical in both variants, src/src/S3BackupScheduler.js lines 220-253 and
357-390): `interval` must be truthy, of number type and not `< 1`; `limit`
likewise; `list`, `create` and `delete` must each be truthy and of function
type.  The first failing check determines the thrown error. -/
def validateSchedulerOptions (o : JsOptions) : Except String Unit :=
  if !(jsTruthy o.interval) || !(isNumberType o.interval) || jsNumLt o.interval 1 then
    .error "new BackupScheduler(options) -> Please provide a valid interval (in milliseconds) between each backup."
  else if !(jsTruthy o.limit) || !(isNumberType o.limit) || jsNumLt o.limit 1 then
    .error "new BackupScheduler(options) -> Please provide a valid limit (in milliseconds) between each backup."
  else if !(jsTruthy o.list) || !(isFunctionType o.list) then
    .error "new BackupScheduler(options) -> Please provide a valid list function to list the current backups in the upstream storage."
  else if !(jsTruthy o.create) || !(isFunctionType o.create) then
    .error "new BackupScheduler(options) -> Please provide a valid create function to generate and upload a backup to the upstream storage."
  else if !(jsTruthy o.delete) || !(isFunctionType o.delete) then
    .error "new BackupScheduler(options) -> Please provide a valid delete function to delete a backup from the upstream storage."
  else
    .ok ()

/-- Modelled from the claim's words, for comparison with the code validator:
a configuration is valid when `interval` is a positive number, `limit` is a
positive integer, and each of the three backend operations is callable. -/
def specValidOptions (o : JsOptions) : Bool :=
  (match o.interval with | .num q => decide (0 < q) | _ => false) &&
  (match o.limit with | .num q => decide (0 < q ∧ q.den = 1) | _ => false) &&
  isFunctionType o.list && isFunctionType o.create && isFunctionType o.delete

/-- The options object handed to the `S3BackupScheduler` constructor: the four
credential-related entries, the scheduling entries forwarded to the parent
constructor, and the user-supplied `name` and `prepare` entries. -/
structure S3Input where
  region : JSValue
  bucket : JSValue
  accessKeyId : JSValue
  secretAccessKey : JSValue
  interval : JSValue
  limit : JSValue
  name : JSValue
  prepare : JSValue
deriving DecidableEq, Repr

/-- The publicly readable `options` field the parent constructor stores when an
`S3BackupScheduler` is constructed: the spread of the caller options with the
four credential entries overwritten by the placeholder string and the three
backend operations overridden.  The three overridden operations are arrow
closures that are the same for every construction and are therefore not
recorded as data here. -/
structure StoredS3Options where
  region : String
  bucket : String
  accessKeyId : String
  secretAccessKey : String
  interval : JSValue
  limit : JSValue
  name : JSValue
  prepare : JSValue
deriving DecidableEq, Repr

/-- Embedding of the `S3BackupScheduler` constructor
(src/src/S3BackupScheduler.js lines 37-107) up to the stored options: validate
`bucket`, `accessKeyId`, `secretAccessKey`, `region` as truthy strings and
`name`, `prepare` as functions, in source order, then run the parent
constructor on the spread options with the four credential entries replaced by
the placeholder and the three backend operations replaced by closures; on
success the parent stores that redacted object in its `options` field. -/
def s3SchedulerNew (o : S3Input) : Except String StoredS3Options :=
  if !(jsTruthy o.bucket) || !(isStringType o.bucket) then
    .error "new S3BackupScheduler(options) -> Please provide a valid bucket name to use for backups."
  else if !(jsTruthy o.accessKeyId) || !(isStringType o.accessKeyId) then
    .error "new S3BackupScheduler(options) -> Please provide a valid access key ID to access the S3 Bucket / Block storage."
  else if !(jsTruthy o.secretAccessKey) || !(isStringType o.secretAccessKey) then
    .error "new S3BackupScheduler(options) -> Please provide a valid secret access key to access the S3 Bucket / Block storage."
  else if !(jsTruthy o.region) || !(isStringType o.region) then
    .error "new S3BackupScheduler(options) -> Please provide a valid region to use for the S3 Bucket / Block storage."
  else if !(jsTruthy o.name) || !(isFunctionType o.name) then
    .error "new S3BackupScheduler(options) -> Please provide a naming scheme for the backups."
  else if !(jsTruthy o.prepare) || !(isFunctionType o.prepare) then
    .error "new S3BackupScheduler(options) -> Please provide a valid prepare function that will be used to prepare each backup."
  else
    match validateSchedulerOptions
        { interval := o.interval, limit := o.limit, list := .fn, create := .fn, delete := .fn } with
    | .error e => .error e
    | .ok _ =>
      .ok { region := "*******", bucket := "*******", accessKeyId := "*******",
            secretAccessKey := "*******", interval := o.interval, limit := o.limit,
            name := o.name, prepare := o.prepare }

theorem jsSortByCreatedAt_cons (x : Backup) (xs : List Backup) :
    jsSortByCreatedAt (x :: xs) = insertSorted x (jsSortByCreatedAt xs) := rfl

theorem insertSorted_perm (x : Backup) (l : List Backup) :
    List.Perm (insertSorted x l) (x :: l) := by
  induction l with
  | nil => exact List.Perm.refl _
  | cons y ys ih =>
    simp only [insertSorted]
    split
    · exact List.Perm.refl _
    · exact (ih.cons y).trans (List.Perm.swap x y ys)

theorem jsSortByCreatedAt_perm (l : List Backup) :
    List.Perm (jsSortByCreatedAt l) l := by
  induction l with
  | nil => exact List.Perm.refl _
  | cons x xs ih =>
    rw [jsSortByCreatedAt_cons]
    exact (insertSorted_perm x _).trans (ih.cons x)

theorem insertSorted_pairwise (x : Backup) (l : List Backup)
    (h : l.Pairwise (fun a b => a.created_at ≤ b.created_at)) :
    (insertSorted x l).Pairwise (fun a b => a.created_at ≤ b.created_at) := by
  induction l with
  | nil => simp [insertSorted]
  | cons y ys ih =>
    rw [List.pairwise_cons] at h
    simp only [insertSorted]
    split
    · rename_i hxy
      refine List.pairwise_cons.2 ⟨?_, List.pairwise_cons.2 ⟨h.1, h.2⟩⟩
      intro b hb
      rcases List.mem_cons.1 hb with rfl | hb2
      · exact hxy
      · exact le_trans hxy (h.1 b hb2)
    · rename_i hxy
      refine List.pairwise_cons.2 ⟨?_, ih h.2⟩
      intro b hb
      rcases List.mem_cons.1 ((insertSorted_perm x ys).mem_iff.1 hb) with rfl | hb2
      · exact le_of_not_le hxy
      · exact h.1 b hb2

theorem jsSortByCreatedAt_pairwise (l : List Backup) :
    (jsSortByCreatedAt l).Pairwise (fun a b => a.created_at ≤ b.created_at) := by
  induction l with
  | nil => simp [jsSortByCreatedAt]
  | cons x xs ih =>
    rw [jsSortByCreatedAt_cons]
    exact insertSorted_pairwise x _ ih

theorem insertSorted_filter_eq (k : Rat) (x : Backup) (l : List Backup)
    (hx : x.created_at = k) :
    (insertSorted x l).filter (createdAtIs k) = x :: l.filter (createdAtIs k) := by
  induction l with
  | nil => simp [insertSorted, createdAtIs, hx]
  | cons y ys ih =>
    simp only [insertSorted]
    split
    · simp [createdAtIs, hx]
    · rename_i hxy
      have hy : y.created_at ≠ k := by
        intro hk
        exact hxy (le_of_eq (hx.trans hk.symm))
      rw [List.filter_cons_of_neg (by simp [createdAtIs, hy]), ih,
        List.filter_cons_of_neg (by simp [createdAtIs, hy])]

theorem insertSorted_filter_ne (k : Rat) (x : Backup) (l : List Backup)
    (hx : x.created_at ≠ k) :
    (insertSorted x l).filter (createdAtIs k) = l.filter (createdAtIs k) := by
  induction l with
  | nil => simp [insertSorted, createdAtIs, hx]
  | cons y ys ih =>
    simp only [insertSorted]
    split
    · rw [List.filter_cons_of_neg (by simp [createdAtIs, hx])]
    · by_cases hy : y.created_at = k
      · rw [List.filter_cons_of_pos (by simp [createdAtIs, hy]), ih,
          List.filter_cons_of_pos (by simp [createdAtIs, hy])]
      · rw [List.filter_cons_of_neg (by simp [createdAtIs, hy]), ih,
          List.filter_cons_of_neg (by simp [createdAtIs, hy])]

theorem jsSortByCreatedAt_filter (l : List Backup) (k : Rat) :
    (jsSortByCreatedAt l).filter (createdAtIs k) = l.filter (createdAtIs k) := by
  induction l with
  | nil => rfl
  | cons x xs ih =>
    rw [jsSortByCreatedAt_cons]
    by_cases hx : x.created_at = k
    · rw [insertSorted_filter_eq k x _ hx, ih,
        List.filter_cons_of_pos (by simp [createdAtIs, hx])]
    · rw [insertSorted_filter_ne k x _ hx, ih,
        List.filter_cons_of_neg (by simp [createdAtIs, hx])]

theorem ratFloor_natCast (m : Nat) : ((m : Rat)).floor.toNat = m := by
  have h : ((m : Rat)).floor = ⌊(m : Rat)⌋ := rfl
  rw [h, Int.floor_natCast, Int.toNat_natCast]

theorem runCycleBodyA_listArgs (cfg : SchedulerConfig) (be : BackendA) :
    listCallArgs (runCycleBodyA cfg be).2.1 = [none] := by
  unfold runCycleBodyA
  dsimp only
  repeat' split
  all_goals simp [listCallArgs]

theorem runCycleBodyB_listArgs (cfg : SchedulerConfig) (be : BackendB) :
    listCallArgs (runCycleBodyB cfg be).2.1 = [none] := by
  unfold runCycleBodyB
  dsimp only
  repeat' split
  all_goals simp [listCallArgs]

theorem runCycleBodyA_success_isNone (cfg : SchedulerConfig) (be : BackendA) :
    (runCycleBodyA cfg be).1 = (runCycleBodyA cfg be).2.2.isNone := by
  unfold runCycleBodyA
  dsimp only
  repeat' split
  all_goals rfl

theorem runCycleBodyB_success_isNone (cfg : SchedulerConfig) (be : BackendB) :
    (runCycleBodyB cfg be).1 = (runCycleBodyB cfg be).2.2.isNone := by
  unfold runCycleBodyB
  dsimp only
  repeat' split
  all_goals rfl

theorem outcome_chars (r : Bool × List BackendCall × Option String)
    (h : r.1 = r.2.2.isNone) :
    (r.1 = false ↔ r.2.2.toList.length = 1) ∧ (r.1 = true ↔ r.2.2.toList = []) := by
  obtain ⟨s, calls, err⟩ := r
  rcases err with _ | e <;> simp_all

/-- C2: invoking the cycle routine while `in_flight` is true returns `false`
immediately with no backend call, no error event and the flag left as is; this
holds for both cycle variants and regardless of whether the invocation came
from the timer or a manual call, since both trigger the same routine. -/
theorem single_flight_guard (cfg : SchedulerConfig) (beA : BackendA) (beB : BackendB) :
    cycleA true cfg beA = ⟨false, true, [], []⟩ ∧
    cycleB true cfg beB = ⟨false, true, [], []⟩ :=
  ⟨rfl, rfl⟩

/-- C6: every invocation of either cycle variant that passes the entry guard
returns with `in_flight` cleared back to `false`, on the success path and on
the failure path alike. -/
theorem in_flight_cleared (cfg : SchedulerConfig) (beA : BackendA) (beB : BackendB) :
    (cycleA false cfg beA).in_flight = false ∧ (cycleB false cfg beB).in_flight = false :=
  ⟨rfl, rfl⟩

/-- C4: in both cycle variants, a cycle that passes the entry guard emits
exactly one `error` event when and only when it fails (returns `false`), emits
none when it succeeds, and an error thrown by the `list` operation is delivered
verbatim as that single event; errors are data in this embedding, so none can
propagate out of the cycle call. -/
theorem error_isolation (cfg : SchedulerConfig) (beA : BackendA) (beB : BackendB) :
    ((cycleA false cfg beA).success = false ↔ (cycleA false cfg beA).errors.length = 1) ∧
    ((cycleA false cfg beA).success = true ↔ (cycleA false cfg beA).errors = []) ∧
    ((cycleB false cfg beB).success = false ↔ (cycleB false cfg beB).errors.length = 1) ∧
    ((cycleB false cfg beB).success = true ↔ (cycleB false cfg beB).errors = []) ∧
    (∀ e, beA.listResult = .thrown e → (cycleA false cfg beA).errors = [e]) ∧
    (∀ e, beB.listResult = .thrown e → (cycleB false cfg beB).errors = [e]) := by
  have hA := outcome_chars _ (runCycleBodyA_success_isNone cfg beA)
  have hB := outcome_chars _ (runCycleBodyB_success_isNone cfg beB)
  refine ⟨hA.1, hA.2, hB.1, hB.2, ?_, ?_⟩
  · intro e he
    show (runCycleBodyA cfg beA).2.2.toList = [e]
    unfold runCycleBodyA
    rw [he]
    rfl
  · intro e he
    show (runCycleBodyB cfg beB).2.2.toList = [e]
    unfold runCycleBodyB
    rw [he]
    rfl

/-- Witness for C4: a backend whose `list` throws makes the cycle emit that
error exactly once. -/
theorem error_isolation_witness :
    (cycleA false ⟨3⟩ ⟨.thrown "boom", .ok (some ⟨"x", 9⟩), fun _ => .ok ()⟩).errors
      = ["boom"] :=
  (error_isolation ⟨3⟩ ⟨.thrown "boom", .ok (some ⟨"x", 9⟩), fun _ => .ok ()⟩
    ⟨.thrown "boom", .ok (), fun _ => .ok ()⟩).2.2.2.2.1 "boom" rfl

/-- C5: this claim is a code bug.  Both cycle variants invoke the backend
`list` operation with an empty argument list, so the `limit` parameter of a
backend list implementation receives `undefined` (`none`); consequently the
disk backend comparison `files.length < limit` is `false` for every entry
count, and its `false` short-circuit can never be taken. -/
theorem list_called_without_limit (cfg : SchedulerConfig) (beA : BackendA) (beB : BackendB) :
    listCallArgs (cycleA false cfg beA).calls = [none] ∧
    listCallArgs (cycleB false cfg beB).calls = [none] ∧
    ∀ numFiles : Nat, diskListShortCircuits numFiles none = false := by
  refine ⟨?_, ?_, fun _ => rfl⟩
  · exact runCycleBodyA_listArgs cfg beA
  · exact runCycleBodyB_listArgs cfg beB

/-- C8: the cycle sort is stable and deterministic.  The sorted snapshot is
ascending in `created_at`, the subsequence of backups sharing any given
`created_at` value is preserved exactly (same entries, same relative order),
and the result is a permutation of the input; determinism across repeated runs
on the same input order holds because `jsSortByCreatedAt` is a function of the
input list. -/
theorem sort_stable_and_sorted (l : List Backup) :
    (jsSortByCreatedAt l).Pairwise (fun a b => a.created_at ≤ b.created_at) ∧
    (∀ k : Rat, (jsSortByCreatedAt l).filter (createdAtIs k) = l.filter (createdAtIs k)) ∧
    List.Perm (jsSortByCreatedAt l) l :=
  ⟨jsSortByCreatedAt_pairwise l, fun k => jsSortByCreatedAt_filter l k, jsSortByCreatedAt_perm l⟩

/-- Counterexample to C3 as stated: in variant A of the cycle (the
implementation without the short-circuit), a `false` return from `list` fails
the array validation, so `create` is called zero times, `delete` is never
called, and the cycle fails — contradicting the claim that `create` is called
exactly once and the cycle reports success in every cycle where `list` returns
`false`. -/
theorem short_circuit_cex :
    createCallCount
        (cycleA false ⟨5⟩ ⟨.boolFalse, .ok (some ⟨"n", 50⟩), fun _ => .ok ()⟩).calls = 0 ∧
    (cycleA false ⟨5⟩ ⟨.boolFalse, .ok (some ⟨"n", 50⟩), fun _ => .ok ()⟩).success = false :=
  ⟨rfl, rfl⟩

/-- C3 amended: in variant B of the cycle (the implementation with the
short-circuit), a `false` return from `list` means `delete` is never called,
`create` is invoked exactly once, and the cycle reports success exactly when
that `create` call succeeds.  In variant A, a `false` return from `list` is
instead a validation error: `create` is never called, `delete` is never
called, and the cycle fails emitting the list-type validation error. -/
theorem short_circuit_amended (cfg : SchedulerConfig) (beA : BackendA) (beB : BackendB)
    (hA : beA.listResult = .boolFalse) (hB : beB.listResult = .boolFalse) :
    (deletePayloads (cycleB false cfg beB).calls = [] ∧
     createCallCount (cycleB false cfg beB).calls = 1 ∧
     ((cycleB false cfg beB).success = true ↔ beB.createResult = .ok ())) ∧
    (createCallCount (cycleA false cfg beA).calls = 0 ∧
     deletePayloads (cycleA false cfg beA).calls = [] ∧
     (cycleA false cfg beA).success = false ∧
     (cycleA false cfg beA).errors = [listTypeError]) := by
  constructor
  · rcases hc : beB.createResult with e | u
    · simp [cycleB, runCycleBodyB, hB, hc, deletePayloads, createCallCount]
    · cases u
      simp [cycleB, runCycleBodyB, hB, hc, deletePayloads, createCallCount]
  · simp [cycleA, runCycleBodyA, hA, createCallCount, deletePayloads]

/-- Witness for C3: concrete backends whose `list` returns `false`. -/
theorem short_circuit_amended_witness :
    deletePayloads (cycleB false ⟨5⟩ ⟨.boolFalse, .ok (), fun _ => .ok ()⟩).calls = [] ∧
    createCallCount (cycleB false ⟨5⟩ ⟨.boolFalse, .ok (), fun _ => .ok ()⟩).calls = 1 ∧
    (cycleB false ⟨5⟩ ⟨.boolFalse, .ok (), fun _ => .ok ()⟩).success = true ∧
    createCallCount
      (cycleA false ⟨5⟩ ⟨.boolFalse, .ok (some ⟨"n", 50⟩), fun _ => .ok ()⟩).calls = 0 := by
  have h := short_circuit_amended ⟨5⟩ ⟨.boolFalse, .ok (some ⟨"n", 50⟩), fun _ => .ok ()⟩
    ⟨.boolFalse, .ok (), fun _ => .ok ()⟩ rfl rfl
  exact ⟨h.1.1, h.1.2.1, h.1.2.2.mpr rfl, h.2.1⟩

/-- Whether an `Except` value is an error, i.e. the constructor threw. -/
def isThrown {α : Type} : Except String α → Bool
  | .error _ => true
  | .ok _ => false

/-- C9: every successfully constructed `Backup` has a non-empty id and a
strictly positive `created_at`, and construction with an empty or non-string
id, or with a zero or negative `created_at`, throws. -/
theorem backup_invariant :
    (∀ i c b, backupNew i c = .ok b → b.id ≠ "" ∧ 0 < b.created_at) ∧
    (∀ i c, ((∀ s : String, i ≠ .str s) ∨ i = .str "" ∨ ∃ q : Rat, q ≤ 0 ∧ c = .num q) →
      isThrown (backupNew i c) = true) := by
  constructor
  · intro i c b h
    unfold backupNew at h
    split at h
    · exact Except.noConfusion h
    split at h
    · exact Except.noConfusion h
    rename_i h1 h2
    have h1' := eq_false_of_ne_true h1
    have h2' := eq_false_of_ne_true h2
    simp only [Bool.or_eq_false_iff, Bool.not_eq_false'] at h1' h2'
    obtain ⟨ht1, hs1⟩ := h1'
    obtain ⟨⟨ht2, hn2⟩, hl2⟩ := h2'
    cases i <;> simp [isStringType] at hs1
    cases c <;> simp [isNumberType] at hn2 <;> try simp [jsTruthy] at ht2
    rename_i s q
    injection h with hb
    subst hb
    constructor
    · simpa [jsTruthy] using ht1
    · have hq1 : ¬ (q < 1) := by simpa [jsNumLt] using hl2
      exact lt_of_lt_of_le zero_lt_one (not_lt.1 hq1)
  · intro i c hbad
    rcases hbad with h | rfl | ⟨q, hq, rfl⟩
    · cases i with
      | str s => exact absurd rfl (h s)
      | undefined => simp [backupNew, isThrown, jsTruthy, isStringType]
      | null => simp [backupNew, isThrown, jsTruthy, isStringType]
      | bool b => simp [backupNew, isThrown, jsTruthy, isStringType]
      | num q => simp [backupNew, isThrown, jsTruthy, isStringType]
      | nan => simp [backupNew, isThrown, jsTruthy, isStringType]
      | fn => simp [backupNew, isThrown, jsTruthy, isStringType]
      | obj => simp [backupNew, isThrown, jsTruthy, isStringType]
    · simp [backupNew, isThrown, jsTruthy]
    · unfold backupNew
      split
      · rfl
      split
      · rfl
      rename_i h2
      exfalso
      apply h2
      rcases lt_or_eq_of_le hq with hlt | rfl
      · have h3 : jsNumLt (.num q) 1 = true := by
          simp only [jsNumLt, decide_eq_true_eq]
          exact lt_trans hlt zero_lt_one
        simp [h3]
      · simp [jsTruthy]

/-- Witness for C9: a valid construction satisfies the invariant, and an empty
id is rejected. -/
theorem backup_invariant_witness :
    ((Backup.mk "a" 5).id ≠ "" ∧ (0 : Rat) < (Backup.mk "a" 5).created_at) ∧
    isThrown (backupNew (.str "") (.num 5)) = true :=
  ⟨backup_invariant.1 (.str "a") (.num 5) (Backup.mk "a" 5) rfl,
   backup_invariant.2 (.str "") (.num 5) (Or.inr (Or.inl rfl))⟩

theorem numberCheck_false_iff (v : JSValue) :
    (!(jsTruthy v) || !(isNumberType v) || jsNumLt v 1) = false ↔
      ∃ q : Rat, v = .num q ∧ 1 ≤ q := by
  cases v <;> simp [jsTruthy, isNumberType, jsNumLt]
  rename_i q
  intro h hq
  rw [hq] at h
  norm_num at h

theorem functionCheck_false_iff (v : JSValue) :
    (!(jsTruthy v) || !(isFunctionType v)) = false ↔ v = .fn := by
  cases v <;> simp [jsTruthy, isFunctionType]

/-- Counterexample to C7 as stated: the claim says the constructor throws iff
the configuration is invalid, invalid meaning a non-positive-number interval,
a non-positive-integer limit, or a missing backend operation.  But an interval
of one half is a positive number and the validator still throws on it, and a
limit of three halves is not a positive integer and the validator still accepts
it. -/
theorem constructor_validation_cex :
    (specValidOptions ⟨.num (Rat.mk' 1 2), .num 5, .fn, .fn, .fn⟩ = true ∧
      isThrown (validateSchedulerOptions ⟨.num (Rat.mk' 1 2), .num 5, .fn, .fn, .fn⟩) = true) ∧
    (specValidOptions ⟨.num 1000, .num (Rat.mk' 3 2), .fn, .fn, .fn⟩ = false ∧
      validateSchedulerOptions ⟨.num 1000, .num (Rat.mk' 3 2), .fn, .fn, .fn⟩ = .ok ()) := by
  refine ⟨⟨by decide, ?_⟩, by decide, ?_⟩ <;> rfl

/-- C7 amended: the constructor throws iff `interval` is not a number with
value at least 1, or `limit` is not a number with value at least 1, or any of
the `list`, `create`, `delete` operations is not a function.  In particular a
fractional `limit` at least 1 is accepted even though it is not an integer, and
a positive fractional `interval` below 1 is rejected even though it is a
positive number; on every configuration valid in this amended sense the
constructor succeeds. -/
theorem constructor_validation_amended (o : JsOptions) :
    validateSchedulerOptions o = .ok () ↔
      ((∃ q : Rat, o.interval = .num q ∧ 1 ≤ q) ∧
       (∃ q : Rat, o.limit = .num q ∧ 1 ≤ q) ∧
       o.list = .fn ∧ o.create = .fn ∧ o.delete = .fn) := by
  constructor
  · intro h
    unfold validateSchedulerOptions at h
    split at h
    · exact Except.noConfusion h
    split at h
    · exact Except.noConfusion h
    split at h
    · exact Except.noConfusion h
    split at h
    · exact Except.noConfusion h
    split at h
    · exact Except.noConfusion h
    rename_i h1 h2 h3 h4 h5
    exact ⟨(numberCheck_false_iff o.interval).1 (eq_false_of_ne_true h1),
      (numberCheck_false_iff o.limit).1 (eq_false_of_ne_true h2),
      (functionCheck_false_iff o.list).1 (eq_false_of_ne_true h3),
      (functionCheck_false_iff o.create).1 (eq_false_of_ne_true h4),
      (functionCheck_false_iff o.delete).1 (eq_false_of_ne_true h5)⟩
  · rintro ⟨hi, hl, hls, hcr, hd⟩
    unfold validateSchedulerOptions
    rw [(numberCheck_false_iff o.interval).2 hi, (numberCheck_false_iff o.limit).2 hl,
      (functionCheck_false_iff o.list).2 hls, (functionCheck_false_iff o.create).2 hcr,
      (functionCheck_false_iff o.delete).2 hd]
    rfl

theorem s3SchedulerNew_ok_shape (o : S3Input) (s : StoredS3Options)
    (h : s3SchedulerNew o = .ok s) :
    s = ⟨"*******", "*******", "*******", "*******", o.interval, o.limit,
      o.name, o.prepare⟩ := by
  unfold s3SchedulerNew at h
  split at h
  · exact Except.noConfusion h
  split at h
  · exact Except.noConfusion h
  split at h
  · exact Except.noConfusion h
  split at h
  · exact Except.noConfusion h
  split at h
  · exact Except.noConfusion h
  split at h
  · exact Except.noConfusion h
  split at h
  · exact Except.noConfusion h
  injection h with h
  exact h.symm

/-- C10: the stored `options` field of a constructed `S3BackupScheduler` holds
the placeholder string for the region, bucket, access key id and secret access
key entries, and any two successful constructions that differ only in those
four inputs store identical options — the real credentials never flow into the
observable options field. -/
theorem s3_options_redaction (o1 o2 : S3Input) (s1 s2 : StoredS3Options)
    (h1 : s3SchedulerNew o1 = .ok s1) (h2 : s3SchedulerNew o2 = .ok s2)
    (hint : o1.interval = o2.interval) (hlim : o1.limit = o2.limit)
    (hname : o1.name = o2.name) (hprep : o1.prepare = o2.prepare) :
    s1 = s2 ∧ s1.region = "*******" ∧ s1.bucket = "*******" ∧
      s1.accessKeyId = "*******" ∧ s1.secretAccessKey = "*******" := by
  rw [s3SchedulerNew_ok_shape o1 s1 h1, s3SchedulerNew_ok_shape o2 s2 h2]
  rw [hint, hlim, hname, hprep]
  exact ⟨rfl, rfl, rfl, rfl, rfl⟩

/-- Witness for C10: two constructions with different credentials store the
same redacted options. -/
theorem s3_options_redaction_witness :
    ((⟨"*******", "*******", "*******", "*******", .num 1000, .num 5, .fn, .fn⟩ :
        StoredS3Options) =
      ⟨"*******", "*******", "*******", "*******", .num 1000, .num 5, .fn, .fn⟩) ∧
    (⟨"*******", "*******", "*******", "*******", .num 1000, .num 5, .fn, .fn⟩ :
        StoredS3Options).region = "*******" ∧
    (⟨"*******", "*******", "*******", "*******", .num 1000, .num 5, .fn, .fn⟩ :
        StoredS3Options).bucket = "*******" ∧
    (⟨"*******", "*******", "*******", "*******", .num 1000, .num 5, .fn, .fn⟩ :
        StoredS3Options).accessKeyId = "*******" ∧
    (⟨"*******", "*******", "*******", "*******", .num 1000, .num 5, .fn, .fn⟩ :
        StoredS3Options).secretAccessKey = "*******" :=
  s3_options_redaction
    ⟨.str "us-east-1", .str "bucket-one", .str "AKIAONE", .str "secret-one",
      .num 1000, .num 5, .fn, .fn⟩
    ⟨.str "eu-west-2", .str "bucket-two", .str "AKIATWO", .str "secret-two",
      .num 1000, .num 5, .fn, .fn⟩
    ⟨"*******", "*******", "*******", "*******", .num 1000, .num 5, .fn, .fn⟩
    ⟨"*******", "*******", "*******", "*******", .num 1000, .num 5, .fn, .fn⟩
    rfl rfl rfl rfl rfl rfl

/-- C1: retention correctness for a successful cycle in either variant.  When
`list` returns an array of `N` valid backups and the configured limit is the
positive integer `L`, the cycle succeeds, both variants delete the same
entries, `delete` is invoked iff `N - L + 1 > 0` and then exactly once with
the `N + 1 - L` entries of smallest `created_at` taken from the pre-create
sorted snapshot; every deleted entry comes from the pre-create snapshot, so
the backup created in the same cycle (not a member of that snapshot) is never
among the deleted entries. -/
theorem retention_correctness
    (cfg : SchedulerConfig) (beA : BackendA) (beB : BackendB)
    (elems : List (Option Backup)) (l : List Backup) (L : Nat) (c : Backup)
    (hlA : beA.listResult = .array elems) (hlB : beB.listResult = .array elems)
    (hval : validateBackups elems = some l)
    (hcrA : beA.createResult = .ok (some c)) (hcrB : beB.createResult = .ok ())
    (hdelA : ∀ bs, beA.deleteResult bs = .ok ()) (hdelB : ∀ bs, beB.deleteResult bs = .ok ())
    (hlim : cfg.limit = (L : Rat)) (hL : 1 ≤ L) (hfresh : c ∉ l) :
    ((cycleA false cfg beA).success = true ∧ (cycleB false cfg beB).success = true) ∧
    deletePayloads (cycleA false cfg beA).calls = deletePayloads (cycleB false cfg beB).calls ∧
    (deletePayloads (cycleB false cfg beB).calls =
      if L ≤ l.length then [(jsSortByCreatedAt l).take (l.length + 1 - L)] else []) ∧
    (∀ bs ∈ deletePayloads (cycleB false cfg beB).calls,
      bs.length = l.length + 1 - L ∧
      (∀ b ∈ bs, b ∈ l) ∧
      c ∉ bs ∧
      ∀ x ∈ bs, ∀ y ∈ (jsSortByCreatedAt l).drop (l.length + 1 - L),
        x.created_at ≤ y.created_at) := by
  have hlen : (jsSortByCreatedAt l).length = l.length := (jsSortByCreatedAt_perm l).length_eq
  have hiff : (0 < ((jsSortByCreatedAt l).length : Rat) - cfg.limit + 1) ↔ L ≤ l.length := by
    rw [hlim, hlen]
    constructor
    · intro h
      by_contra hn
      push_neg at hn
      have hc : (l.length : Rat) + 1 ≤ (L : Rat) := by exact_mod_cast Nat.succ_le_of_lt hn
      linarith
    · intro h
      have hc : (L : Rat) ≤ (l.length : Rat) := by exact_mod_cast h
      linarith
  by_cases hLN : L ≤ l.length
  · have hpos : 0 < ((jsSortByCreatedAt l).length : Rat) - cfg.limit + 1 := hiff.2 hLN
    have hidx : jsToSliceIndex (((jsSortByCreatedAt l).length : Rat) - cfg.limit + 1) =
        l.length + 1 - L := by
      rw [hlen, hlim]
      have hcast : ((l.length : Rat) - (L : Rat) + 1) = ((l.length + 1 - L : Nat) : Rat) := by
        have h1 : L ≤ l.length + 1 := le_trans hLN (Nat.le_succ _)
        push_cast [Nat.cast_sub h1]
        ring
      rw [hcast]
      exact ratFloor_natCast _
    have eB : runCycleBodyB cfg beB =
        (true, [.listCall none, .createCall,
          .deleteCall ((jsSortByCreatedAt l).take (l.length + 1 - L))], none) := by
      simp only [runCycleBodyB, hlB, hval, hcrB]
      rw [if_pos hpos, hidx, hdelB]
    have eA : runCycleBodyA cfg beA =
        (true, [.listCall none, .createCall,
          .deleteCall ((jsSortByCreatedAt l).take (l.length + 1 - L))], none) := by
      simp only [runCycleBodyA, hlA, hval, hcrA]
      rw [if_pos hpos, hidx, hdelA]
    have cA : cycleA false cfg beA = ⟨true, false,
        [.listCall none, .createCall,
          .deleteCall ((jsSortByCreatedAt l).take (l.length + 1 - L))], []⟩ := by
      have h0 : cycleA false cfg beA = ⟨(runCycleBodyA cfg beA).1, false,
          (runCycleBodyA cfg beA).2.1, (runCycleBodyA cfg beA).2.2.toList⟩ := rfl
      rw [h0, eA]
      rfl
    have cB : cycleB false cfg beB = ⟨true, false,
        [.listCall none, .createCall,
          .deleteCall ((jsSortByCreatedAt l).take (l.length + 1 - L))], []⟩ := by
      have h0 : cycleB false cfg beB = ⟨(runCycleBodyB cfg beB).1, false,
          (runCycleBodyB cfg beB).2.1, (runCycleBodyB cfg beB).2.2.toList⟩ := rfl
      rw [h0, eB]
      rfl
    rw [cA, cB]
    refine ⟨⟨rfl, rfl⟩, rfl, ?_, ?_⟩
    · rw [if_pos hLN]
      rfl
    · intro bs hbs
      have hbs2 : bs = (jsSortByCreatedAt l).take (l.length + 1 - L) := by
        simpa [deletePayloads] using hbs
      subst hbs2
      have hmem : ∀ b ∈ (jsSortByCreatedAt l).take (l.length + 1 - L), b ∈ l := by
        intro b hb
        exact (jsSortByCreatedAt_perm l).subset (List.take_subset _ _ hb)
      refine ⟨?_, hmem, fun hc => hfresh (hmem c hc), ?_⟩
      · rw [List.length_take, hlen]
        omega
      · intro x hx y hy
        exact List.Sorted.rel_of_mem_take_of_mem_drop (jsSortByCreatedAt_pairwise l) hx hy
  · have hneg : ¬ (0 < ((jsSortByCreatedAt l).length : Rat) - cfg.limit + 1) :=
      fun h => hLN (hiff.1 h)
    have eB : runCycleBodyB cfg beB = (true, [.listCall none, .createCall], none) := by
      simp only [runCycleBodyB, hlB, hval, hcrB]
      rw [if_neg hneg]
    have eA : runCycleBodyA cfg beA = (true, [.listCall none, .createCall], none) := by
      simp only [runCycleBodyA, hlA, hval, hcrA]
      rw [if_neg hneg]
    have cA : cycleA false cfg beA =
        ⟨true, false, [.listCall none, .createCall], []⟩ := by
      have h0 : cycleA false cfg beA = ⟨(runCycleBodyA cfg beA).1, false,
          (runCycleBodyA cfg beA).2.1, (runCycleBodyA cfg beA).2.2.toList⟩ := rfl
      rw [h0, eA]
      rfl
    have cB : cycleB false cfg beB =
        ⟨true, false, [.listCall none, .createCall], []⟩ := by
      have h0 : cycleB false cfg beB = ⟨(runCycleBodyB cfg beB).1, false,
          (runCycleBodyB cfg beB).2.1, (runCycleBodyB cfg beB).2.2.toList⟩ := rfl
      rw [h0, eB]
      rfl
    rw [cA, cB]
    refine ⟨⟨rfl, rfl⟩, rfl, ?_, ?_⟩
    · rw [if_neg hLN]
      rfl
    · intro bs hbs
      simp [deletePayloads] at hbs

/-- Witness for C1: with limit 3 and a pre-create snapshot of four backups at
times 100, 200, 300, 400, one successful cycle deletes exactly the two oldest
entries in both variants. -/
theorem retention_correctness_witness :
    deletePayloads (cycleB false ⟨3⟩
        ⟨.array [some ⟨"A", 100⟩, some ⟨"B", 200⟩, some ⟨"C", 300⟩, some ⟨"D", 400⟩],
         .ok (), fun _ => .ok ()⟩).calls = [[⟨"A", 100⟩, ⟨"B", 200⟩]] ∧
    (cycleB false ⟨3⟩
        ⟨.array [some ⟨"A", 100⟩, some ⟨"B", 200⟩, some ⟨"C", 300⟩, some ⟨"D", 400⟩],
         .ok (), fun _ => .ok ()⟩).success = true ∧
    (cycleA false ⟨3⟩
        ⟨.array [some ⟨"A", 100⟩, some ⟨"B", 200⟩, some ⟨"C", 300⟩, some ⟨"D", 400⟩],
         .ok (some ⟨"E", 500⟩), fun _ => .ok ()⟩).success = true := by
  have h := retention_correctness ⟨3⟩
    ⟨.array [some ⟨"A", 100⟩, some ⟨"B", 200⟩, some ⟨"C", 300⟩, some ⟨"D", 400⟩],
     .ok (some ⟨"E", 500⟩), fun _ => .ok ()⟩
    ⟨.array [some ⟨"A", 100⟩, some ⟨"B", 200⟩, some ⟨"C", 300⟩, some ⟨"D", 400⟩],
     .ok (), fun _ => .ok ()⟩
    [some ⟨"A", 100⟩, some ⟨"B", 200⟩, some ⟨"C", 300⟩, some ⟨"D", 400⟩]
    [⟨"A", 100⟩, ⟨"B", 200⟩, ⟨"C", 300⟩, ⟨"D", 400⟩] 3 ⟨"E", 500⟩
    rfl rfl rfl rfl rfl (fun _ => rfl) (fun _ => rfl) (by norm_num) (by norm_num) (by decide)
  refine ⟨?_, h.1.2, h.1.1⟩
  rw [h.2.2.1]
  decide

end BackupSchedulerModel
